import Mathlib

set_option linter.unusedVariables false

/-!
Shallow embedding of the GCN link-prediction training script `gcn/train.py`
(repository MintyLee/gcn_ppi_yeast) and proofs about it.

Conventions used throughout:
  * machine floats are idealized as exact numbers: rationals `ℚ` where the
    computations are field operations (so that concrete runs can be evaluated
    by `decide`), and reals `ℝ` where the script uses transcendental
    functions (`np.exp`, `tf.log`);
  * a sparse tensor is kept in the (indices, values) form the script feeds to
    TensorFlow, dense matrices are functions `Fin m → Fin n → α`;
  * the dropout mask randomness is made explicit: a draw `u k ∈ [0,1)` of the
    process-wide uniform generator is passed in as a function, and entry `k`
    is retained iff `1 ≤ keep + u k` (the standard `floor(keep + uniform)`
    mask realisation, a no-op at `keep = 1`).
-/

/-- Sparse tensor represented as the (indices, values) pair of
`tf.SparseTensor` / of the `sparse_to_tuple` triples fed into the graph; the
dense shape is supplied where the tensor is consumed. -/
structure SparseT (α : Type) where
  indices : List (ℕ × ℕ)
  values : List α

/-- Sum of a list of addends, the order TensorFlow's reductions use is
irrelevant for our idealized arithmetic. -/
def listSum [Add α] [Zero α] (l : List α) : α := l.foldr (fun a b => a + b) 0

/-- Dense reading of a sparse tensor of shape m × n: entry (i,j) is the sum of
all stored values whose index is (i,j). -/
def SparseT.toMatrix [Add α] [Zero α] (m n : ℕ) (x : SparseT α) : Fin m → Fin n → α :=
  fun i j =>
    listSum (((x.indices.zip x.values).filter
      (fun p => decide (p.1 = ((i : ℕ), (j : ℕ))))).map Prod.snd)

/-- Dense matrix product (`tf.matmul` / `tf.sparse_tensor_dense_matmul` after
densifying the sparse operand). -/
def matMulL [Add α] [Mul α] [Zero α] {m k n : ℕ}
    (A : Fin m → Fin k → α) (B : Fin k → Fin n → α) : Fin m → Fin n → α :=
  fun i j => listSum ((List.finRange k).map (fun t => A i t * B t j))

/-- Matrix transpose (`tf.transpose`). -/
def transposeM {m n : ℕ} (A : Fin m → Fin n → α) : Fin n → Fin m → α :=
  fun j i => A i j

/-- Modelled from the spec: the helper `dropout_sparse` lives in
`gcn/utils.py`, which is not under src/.  Spec section 4.1: every stored entry
is independently retained with probability `keep` (here: entry `k` is kept iff
`1 ≤ keep + u k` for the uniform draw `u k`), retained values are rescaled by
`1/keep` (inverted dropout), dropped values become zero.  `injF` embeds the
rational keep probability into the value type. -/
def dropoutVals [Div α] [Zero α] (injF : ℚ → α) (keep : ℚ) (u : ℕ → ℚ) :
    ℕ → List α → List α
  | _, [] => []
  | k, v :: vs =>
    (if 1 ≤ keep + u k then v / injF keep else 0) :: dropoutVals injF keep u (k + 1) vs

/-- Modelled from the spec: `dropout_sparse(x, keep_prob, num_nonzero)` of
`gcn/utils.py` (spec section 4.1); the stored nonzero count only fixes the
shape of the random mask, which the explicit draw `u` already covers. -/
def dropout_sparse [Div α] [Zero α] (injF : ℚ → α) (x : SparseT α) (keep : ℚ)
    (u : ℕ → ℚ) (num_nonzero : ℕ) : SparseT α :=
  { indices := x.indices, values := dropoutVals injF keep u 0 x.values }

/-- `tf.nn.relu` (max(x, 0)) on an idealized rational scalar, written with an
explicit comparison so that it evaluates inside the kernel. -/
def reluQ (q : ℚ) : ℚ := if 0 ≤ q then q else 0

/-- Pre-activation tensor `x` of `GraphConvolutionSparse.__call__`
(train.py lines 85–88): sparse dropout on the input with keep probability
`1 - dropout`, sparse·dense product with the weight matrix, then sparse·dense
product with the stored adjacency. -/
def GraphConvolutionSparse.preact [Add α] [Mul α] [Zero α] [Div α] (injF : ℚ → α)
    {n din dout : ℕ} (adj : SparseT α) (weights : Fin din → Fin dout → α)
    (dropout : ℚ) (u : ℕ → ℚ) (features_nonzero : ℕ) (inputs : SparseT α) :
    Fin n → Fin dout → α :=
  let x := dropout_sparse injF inputs (1 - dropout) u features_nonzero
  let x1 := matMulL (SparseT.toMatrix n din x) weights
  matMulL (SparseT.toMatrix n n adj) x1

/-- `GraphConvolutionSparse.__call__` (train.py lines 83–91) returns
`act(x)`.  The `tf.debugging.check_numerics` op created on line 90 is neither
returned nor depended on by `outputs`, so TF1 graph execution prunes it and it
never runs; the call therefore yields the activated outputs unconditionally. -/
def GraphConvolutionSparse.call [Add α] [Mul α] [Zero α] [Div α] (injF : ℚ → α)
    (act : α → α) {n din dout : ℕ} (adj : SparseT α)
    (weights : Fin din → Fin dout → α) (dropout : ℚ) (u : ℕ → ℚ)
    (features_nonzero : ℕ) (inputs : SparseT α) : Fin n → Fin dout → α :=
  fun i j =>
    act (GraphConvolutionSparse.preact injF adj weights dropout u
      features_nonzero inputs (n := n) i j)

/-- At keep probability 1 and in-range uniform draws, sparse dropout keeps
every rational value unchanged. -/
theorem dropoutVals_one (u : ℕ → ℚ) (hu : ∀ k, 0 ≤ u k) :
    ∀ (k : ℕ) (vs : List ℚ), dropoutVals id 1 u k vs = vs := by
  intro k vs
  induction vs generalizing k with
  | nil => rfl
  | cons v vs ih =>
    simp only [dropoutVals]
    rw [if_pos (by linarith [hu k]), ih]
    simp

/-- Sparse-input test fixture of `TestLayer.test_propagate_node_state`
(train.py line 150): adjacency with edges (0,1) and (1,0), both weight 1. -/
def adjTestFixture : SparseT ℚ := ⟨[(0, 1), (1, 0)], [1, 1]⟩

/-- Weight matrix fixture of `TestLayer.test_propagate_node_state`
(train.py lines 152–156). -/
def weightsTestFixture : Fin 3 → Fin 2 → ℚ := ![![1, 0], ![0, 1], ![0, 0]]

/-- Identity feature matrix fixture (`node_state`, train.py line 159). -/
def nodeStateFixture : SparseT ℚ := ⟨[(0, 0), (1, 1), (2, 2)], [1, 1, 1]⟩

/-- Claim C5: with the 3-node adjacency holding edges (0,1) and (1,0) of
weight 1, the weight matrix with columns [1,0,0] and [0,1,0], identity
features, zero dropout and ReLU activation, the sparse-input graph convolution
outputs exactly the rows [[0,1],[1,0],[0,0]], for every in-range draw of the
dropout randomness. -/
theorem C5_propagate_node_state (u : ℕ → ℚ) (hu : ∀ k, 0 ≤ u k) :
    GraphConvolutionSparse.call id reluQ (n := 3) adjTestFixture
      weightsTestFixture 0 u 3 nodeStateFixture = ![![0, 1], ![1, 0], ![0, 0]] := by
  funext i j
  simp only [GraphConvolutionSparse.call, GraphConvolutionSparse.preact,
    dropout_sparse]
  rw [show (1 - 0 : ℚ) = 1 by norm_num, dropoutVals_one u hu]
  fin_cases i <;> fin_cases j <;>
    simp +decide [matMulL, SparseT.toMatrix, listSum, adjTestFixture,
      weightsTestFixture, nodeStateFixture, reluQ, List.finRange_succ_eq_map,
      Matrix.cons_val_zero, Matrix.cons_val_one, Matrix.head_cons]

/-- Witness for C5 at the all-zero uniform draw. -/
theorem C5_propagate_node_state_witness :
    GraphConvolutionSparse.call id reluQ (n := 3) adjTestFixture
      weightsTestFixture 0 (fun _ => 0) 3 nodeStateFixture
      = ![![0, 1], ![1, 0], ![0, 0]] :=
  C5_propagate_node_state (fun _ => 0) (fun _ => le_refl 0)

/-! ## Idealized float values with a non-finite element (for claim C3)

The script's first layer is the place where the spec demands a finiteness
check.  To reason about NaN propagation we re-run the same layer definition
over a value type that adjoins an absorbing non-finite element to the exact
rationals.  `Val.nan` behaves like IEEE NaN under `+`, `*` and ReLU
(propagates unconditionally); IEEE infinities are not modelled separately and
a division by zero is conservatively mapped to the non-finite value. -/

inductive Val : Type
  | fin (q : ℚ)
  | nan
deriving DecidableEq

instance : Zero Val := ⟨Val.fin 0⟩

/-- Addition on idealized floats: NaN absorbs. -/
def Val.add : Val → Val → Val
  | Val.fin x, Val.fin y => Val.fin (x + y)
  | _, _ => Val.nan

instance : Add Val := ⟨Val.add⟩

/-- Multiplication on idealized floats: NaN absorbs (as in IEEE, also for a
zero factor). -/
def Val.mul : Val → Val → Val
  | Val.fin x, Val.fin y => Val.fin (x * y)
  | _, _ => Val.nan

instance : Mul Val := ⟨Val.mul⟩

/-- Division on idealized floats: NaN absorbs, division by zero is
non-finite. -/
def Val.div : Val → Val → Val
  | Val.fin x, Val.fin y => if y = 0 then Val.nan else Val.fin (x / y)
  | _, _ => Val.nan

instance : Div Val := ⟨Val.div⟩

/-- `tf.nn.relu` on idealized floats; relu(NaN) = NaN. -/
def reluV : Val → Val
  | Val.fin q => Val.fin (if 0 ≤ q then q else 0)
  | Val.nan => Val.nan

theorem Val.fin_add_fin (x y : ℚ) : Val.fin x + Val.fin y = Val.fin (x + y) := rfl

theorem Val.nan_add (a : Val) : Val.nan + a = Val.nan := by cases a <;> rfl

theorem Val.add_nan (a : Val) : a + Val.nan = Val.nan := by cases a <;> rfl

theorem Val.fin_mul_fin (x y : ℚ) : Val.fin x * Val.fin y = Val.fin (x * y) := rfl

theorem Val.nan_mul (a : Val) : Val.nan * a = Val.nan := by cases a <;> rfl

theorem Val.mul_nan (a : Val) : a * Val.nan = Val.nan := by cases a <;> rfl

theorem Val.fin_div_one (x : ℚ) : Val.fin x / Val.fin 1 = Val.fin x := by
  show Val.div (Val.fin x) (Val.fin 1) = Val.fin x
  simp [Val.div]

theorem Val.nan_div (a : Val) : Val.nan / a = Val.nan := by cases a <;> rfl

/-- `tf.debugging.check_numerics(tensor, message)`: when the op is actually
executed it aborts the run with `message` iff the tensor holds a non-finite
value, and otherwise passes the tensor through unchanged. -/
def check_numerics (m n : ℕ) (T : Fin m → Fin n → Val) (msg : String) :
    Except String (Fin m → Fin n → Val) :=
  if ∀ i j, T i j ≠ Val.nan then Except.ok T else Except.error msg

/-- Adjacency fixture for claim C3: the (0,0) entry is non-finite, as produced
for instance by a 0/0 degree normalization of an isolated node; the finite
part is the two-edge adjacency of the layer test. -/
def adjNanFixture : SparseT Val :=
  ⟨[(0, 0), (0, 1), (1, 0)], [Val.nan, Val.fin 1, Val.fin 1]⟩

/-- Finite 3×2 weight fixture over idealized floats. -/
def weightsValFixture : Fin 3 → Fin 2 → Val :=
  ![![Val.fin 1, Val.fin 0], ![Val.fin 0, Val.fin 1], ![Val.fin 0, Val.fin 0]]

/-- Identity 3×3 feature fixture over idealized floats. -/
def idValFixture : SparseT Val :=
  ⟨[(0, 0), (1, 1), (2, 2)], [Val.fin 1, Val.fin 1, Val.fin 1]⟩

/-- Message string of the check on train.py line 90. -/
def instabilityMsg : String :=
  "Output of layer gcn_sparse_layer has numerical instability"

/-- Claim C3 (code bug): at an input whose propagation produces a non-finite
pre-activation entry, the `check_numerics` op would abort if it were executed,
but `GraphConvolutionSparse.__call__` returns the activated outputs — with the
non-finite value still inside — because the op created on train.py line 90 is
discarded (nothing depends on it, so TF1 graph execution prunes it).  The
forward pass therefore does return a non-finite result silently, contradicting
the claim. -/
theorem C3_check_numerics_never_executes :
    GraphConvolutionSparse.preact Val.fin (n := 3) adjNanFixture
        weightsValFixture 0 (fun _ => 0) 3 idValFixture 0 0 = Val.nan
    ∧ check_numerics 3 2 (GraphConvolutionSparse.preact Val.fin (n := 3)
        adjNanFixture weightsValFixture 0 (fun _ => 0) 3 idValFixture)
        instabilityMsg = Except.error instabilityMsg
    ∧ GraphConvolutionSparse.call Val.fin reluV (n := 3) adjNanFixture
        weightsValFixture 0 (fun _ => 0) 3 idValFixture 0 0 = Val.nan := by
  have hpre : GraphConvolutionSparse.preact Val.fin (n := 3) adjNanFixture
      weightsValFixture 0 (fun _ => 0) 3 idValFixture 0 0 = Val.nan := by
    simp +decide [GraphConvolutionSparse.preact, dropout_sparse, dropoutVals,
      matMulL, SparseT.toMatrix, listSum, adjNanFixture, weightsValFixture,
      idValFixture, List.finRange_succ_eq_map, Val.fin_add_fin, Val.nan_add,
      Val.add_nan, Val.fin_mul_fin, Val.nan_mul, Val.mul_nan, Val.fin_div_one,
      Val.nan_div, Matrix.cons_val_zero, Matrix.cons_val_one, Matrix.head_cons]
  refine ⟨hpre, ?_, ?_⟩
  · rw [check_numerics, if_neg (fun h => h 0 0 hpre)]
  · show reluV (GraphConvolutionSparse.preact Val.fin (n := 3) adjNanFixture
      weightsValFixture 0 (fun _ => 0) 3 idValFixture 0 0) = Val.nan
    rw [hpre]
    rfl

/-! ## InnerProductDecoder (train.py lines 125–141) and claim C6 -/

/-- `tf.nn.dropout` on a dense matrix: standard inverted dropout with keep
probability `keep` and uniform draws `u i j`, entry (i,j) kept iff
`1 ≤ keep + u i j`, retained entries rescaled by `1/keep`. -/
def dropoutDense (keep : ℚ) (u : ℕ → ℕ → ℚ) {m n : ℕ}
    (M : Fin m → Fin n → ℚ) : Fin m → Fin n → ℚ :=
  fun i j => if 1 ≤ keep + u i j then M i j / keep else 0

/-- Row-major flattening of an m × n matrix into a list of length m·n
(`tf.reshape(x, [-1])`). -/
def flattenRM {m n : ℕ} (M : Fin m → Fin n → α) : List α :=
  (List.finRange m).flatMap (fun i => (List.finRange n).map (fun j => M i j))

/-- Dot product of two length-d rows. -/
def dotL {d : ℕ} (f g : Fin d → ℚ) : ℚ :=
  listSum ((List.finRange d).map (fun t => f t * g t))

/-- `InnerProductDecoder.__call__` (train.py lines 134–141): dense dropout on
the embeddings, product with the transpose, row-major flattening, then the
activation on every entry of the flattened vector. -/
def InnerProductDecoder.call (dropout : ℚ) (u : ℕ → ℕ → ℚ) (act : ℚ → ℚ)
    {n d : ℕ} (inputs : Fin n → Fin d → ℚ) : List ℚ :=
  let x := dropoutDense (1 - dropout) u inputs
  let xt := transposeM x
  let prod := matMulL x xt
  (flattenRM prod).map act

/-- At keep probability 1 and in-range uniform draws, dense dropout is the
identity. -/
theorem dropoutDense_one (u : ℕ → ℕ → ℚ) (hu : ∀ i j, 0 ≤ u i j) {m n : ℕ}
    (M : Fin m → Fin n → ℚ) : dropoutDense 1 u M = M := by
  funext i j
  rw [dropoutDense, if_pos (by linarith [hu (i : ℕ) (j : ℕ)])]
  simp

/-- Embedding fixture of `TestLayer.test_decoder` (train.py lines 199–204). -/
def embFixture : Fin 3 → Fin 2 → ℚ := ![![0, 1], ![0, 1], ![0, 0]]

/-- Claim C6: the decoder's forward pass at zero dropout computes the
row-major flattening of the matrix of all pairwise embedding dot products with
the activation applied afterwards (a length n² vector), and on the embedding
fixture [[0,1],[0,1],[0,0]] with identity activation it returns exactly
[1,1,0,1,1,0,0,0,0]. -/
theorem C6_inner_product_decoder :
    (∀ (n d : ℕ) (inputs : Fin n → Fin d → ℚ) (act : ℚ → ℚ) (u : ℕ → ℕ → ℚ),
        (∀ i j, 0 ≤ u i j) →
        InnerProductDecoder.call 0 u act inputs
          = (flattenRM (fun i j => dotL (inputs i) (inputs j))).map act
        ∧ (InnerProductDecoder.call 0 u act inputs).length = n * n)
    ∧ InnerProductDecoder.call 0 (fun _ _ => 0) id embFixture
        = [1, 1, 0, 1, 1, 0, 0, 0, 0] := by
  have hgen : ∀ (n d : ℕ) (inputs : Fin n → Fin d → ℚ) (act : ℚ → ℚ)
      (u : ℕ → ℕ → ℚ), (∀ i j, 0 ≤ u i j) →
      InnerProductDecoder.call 0 u act inputs
        = (flattenRM (fun i j => dotL (inputs i) (inputs j))).map act := by
    intro n d inputs act u hu
    show ((flattenRM (matMulL (dropoutDense (1 - 0) u inputs)
      (transposeM (dropoutDense (1 - 0) u inputs)))).map act) = _
    rw [show (1 - 0 : ℚ) = 1 by norm_num, dropoutDense_one u hu]
    rfl
  refine ⟨fun n d inputs act u hu => ⟨hgen n d inputs act u hu, ?_⟩, ?_⟩
  · rw [hgen n d inputs act u hu]
    simp [flattenRM, List.length_flatMap, Function.comp_def, List.map_const]
  · rw [hgen 3 2 embFixture id (fun _ _ => 0) (fun _ _ => le_refl 0)]
    simp +decide [flattenRM, dotL, listSum, embFixture,
      List.finRange_succ_eq_map, Matrix.cons_val_zero, Matrix.cons_val_one,
      Matrix.head_cons]

/-- Witness for C6: its general part applied to the test fixture with the
all-zero uniform draw. -/
theorem C6_inner_product_decoder_witness :
    InnerProductDecoder.call 0 (fun _ _ => 0) id embFixture
      = (flattenRM (fun i j => dotL (embFixture i) (embFixture j))).map id :=
  (C6_inner_product_decoder.1 3 2 embFixture id (fun _ _ => 0)
    (fun _ _ => le_refl 0)).1

/-! ## Feed dictionary and optimizer labels (claims C2) -/

/-- The feed dictionary of the script: values fed into the graph placeholders
`features`, `adj`, `adj_orig` and `dropout` at every `sess.run`.  Sparse feeds
are recorded through their dense reading; `dropout` starts at the
`placeholder_with_default` value 0 until the training loop first updates it. -/
structure FeedDict (n : ℕ) where
  features : SparseT ℚ
  adj : Fin n → Fin n → ℚ
  adj_orig : Fin n → Fin n → ℚ
  dropout : ℚ

/-- `construct_feed_dict(adj_normalized, adj, features, placeholders)`
(train.py lines 30–35): the second argument lands in the `adj_orig`
placeholder slot. -/
def construct_feed_dict {n : ℕ} (adj_normalized adj : Fin n → Fin n → ℚ)
    (features : SparseT ℚ) : FeedDict n :=
  { features := features, adj := adj_normalized, adj_orig := adj, dropout := 0 }

/-- `adj_orig` of train.py lines 290–291: the loaded adjacency with its
diagonal stripped (kept "for later", i.e. for evaluation). -/
def adj_orig {n : ℕ} (adj : Fin n → Fin n → ℚ) : Fin n → Fin n → ℚ :=
  fun i j => if (i : ℕ) = (j : ℕ) then 0 else adj i j

/-- `adj_label` of train.py line 296: the training adjacency (val/test edges
already removed) with the diagonal added back (`adj_train + sp.eye`). -/
def adj_label {n : ℕ} (adj_train : Fin n → Fin n → ℚ) : Fin n → Fin n → ℚ :=
  fun i j => adj_train i j + (if (i : ℕ) = (j : ℕ) then 1 else 0)

/-- The `labels` tensor wired into the Optimizer (train.py line 313): the
row-major flattening of the dense reading of whatever the `adj_orig`
placeholder is fed. -/
def optimizerLabels {n : ℕ} (fd : FeedDict n) : List ℚ :=
  flattenRM fd.adj_orig

/-- `feed_dict.update({placeholders['dropout']: FLAGS.dropout})` at the top of
every epoch (train.py line 328). -/
def epochFeedUpdate {n : ℕ} (flagsDropout : ℚ) (fd : FeedDict n) : FeedDict n :=
  { fd with dropout := flagsDropout }

/-- `feed_dict.update({placeholders['dropout']: 0})` performed inside
`get_roc_score` (train.py line 39). -/
def rocFeedUpdate {n : ℕ} (fd : FeedDict n) : FeedDict n :=
  { fd with dropout := 0 }

/-- Evolution of the (single, mutated in place) feed dictionary across whole
epochs of the training loop (train.py lines 326–332): each epoch sets the
dropout feed to `FLAGS.dropout`, runs the optimizer, then `get_roc_score`
resets the dropout feed to 0. -/
def feedAfterEpochs {n : ℕ} (flagsDropout : ℚ) : ℕ → FeedDict n → FeedDict n
  | 0, fd => fd
  | e + 1, fd =>
    feedAfterEpochs flagsDropout e (rocFeedUpdate (epochFeedUpdate flagsDropout fd))

/-- The feed dictionary as the optimizer's `sess.run` of epoch `e` sees it:
after `e` completed epochs and this epoch's dropout update. -/
def feedDuringEpoch {n : ℕ} (flagsDropout : ℚ) (e : ℕ) (fd0 : FeedDict n) :
    FeedDict n :=
  epochFeedUpdate flagsDropout (feedAfterEpochs flagsDropout e fd0)

/-- The loop never touches the `adj_orig` feed. -/
theorem feedAfterEpochs_adj_orig {n : ℕ} (flagsDropout : ℚ) (e : ℕ)
    (fd : FeedDict n) :
    (feedAfterEpochs flagsDropout e fd).adj_orig = fd.adj_orig := by
  induction e generalizing fd with
  | zero => rfl
  | succ e ih => rw [feedAfterEpochs, ih]; rfl

/-- Original 2-node adjacency for the C2 counterexample: one undirected edge
(0,1), zero diagonal. -/
def adjC2 : Fin 2 → Fin 2 → ℚ := ![![0, 1], ![1, 0]]

/-- Training adjacency for the C2 counterexample: the single edge was moved to
the test split, so `adj_train` is empty. -/
def adjTrainC2 : Fin 2 → Fin 2 → ℚ := ![![0, 0], ![0, 0]]

/-- Sparse identity features on 2 nodes. -/
def featuresC2 : SparseT ℚ := ⟨[(0, 0), (1, 1)], [1, 1]⟩

/-- Counterexample to claim C2: the label vector the optimizer compares
against is NOT the flattened original adjacency with stripped diagonal.  With
the original adjacency holding edge (0,1) and the training adjacency empty
(the edge went to the test split), the labels actually fed (flattened
`adj_train + I` = [1,0,0,1]) differ from the flattened stripped original
([0,1,1,0]) already in epoch 0. -/
theorem C2_labels_counterexample :
    optimizerLabels (feedDuringEpoch (1/10) 0
        (construct_feed_dict adjTrainC2 (adj_label adjTrainC2) featuresC2))
      ≠ flattenRM (adj_orig adjC2) := by
  simp +decide [optimizerLabels, feedDuringEpoch, feedAfterEpochs,
    epochFeedUpdate, construct_feed_dict, flattenRM, adj_label, adj_orig,
    adjC2, adjTrainC2, List.finRange_succ_eq_map, Matrix.cons_val_zero,
    Matrix.cons_val_one, Matrix.head_cons]

/-- Claim C2, amended: in every epoch of the run the label vector the
weighted reconstruction loss compares the logits against is the flattened
training adjacency with self-loops added (`adj_train + I`, the value fed into
the misleadingly named `adj_orig` placeholder), not the original adjacency. -/
theorem C2_labels_amended {n : ℕ} (adj_train adj_normalized : Fin n → Fin n → ℚ)
    (features : SparseT ℚ) (flagsDropout : ℚ) (e : ℕ) :
    optimizerLabels (feedDuringEpoch flagsDropout e
        (construct_feed_dict adj_normalized (adj_label adj_train) features))
      = flattenRM (adj_label adj_train) := by
  simp [optimizerLabels, feedDuringEpoch, epochFeedUpdate,
    feedAfterEpochs_adj_orig, construct_feed_dict]

/-! ## Evaluator (`get_roc_score`, train.py lines 38–64) — claims C4, C7, C10

The scoring functions of sklearn are external collaborators; they are modelled
from their documented behavior: both reject input whose label and prediction
vectors differ in length (and degenerate one-class label vectors), modelled as
returning `none`. -/

/-- The nested `sigmoid` helper (train.py lines 42–43). -/
noncomputable def sigmoid (x : ℝ) : ℝ := 1 / (1 + Real.exp (-x))

open Classical in
/-- Modelled from the documented behavior of `sklearn.metrics.roc_auc_score`:
the probability that a positive-label prediction ranks above a negative-label
one (ties counted half), as the pair-counting form of ROC-AUC; `none` on a
length mismatch or when only one class is present. -/
noncomputable def roc_auc_score (labels preds : List ℝ) : Option ℝ :=
  if labels.length = preds.length then
    let pairs := labels.zip preds
    let P := pairs.filter (fun p => decide (p.1 = 1))
    let N := pairs.filter (fun p => decide (p.1 ≠ 1))
    if P.length = 0 ∨ N.length = 0 then none
    else
      some ((listSum (P.flatMap (fun a => N.map (fun b =>
          if b.2 < a.2 then (1 : ℝ) else if a.2 = b.2 then 1 / 2 else 0))))
        / ((P.length : ℝ) * (N.length : ℝ)))
  else none

open Classical in
/-- Running precision-at-k accumulator of average precision: walk the
predictions in ranked order, adding `hits/seen` at every positive label. -/
noncomputable def apScan : List (ℝ × ℝ) → ℕ → ℕ → ℝ
  | [], _, _ => 0
  | p :: rest, seen, hits =>
    if p.1 = 1 then ((hits + 1 : ℝ) / (seen + 1)) + apScan rest (seen + 1) (hits + 1)
    else apScan rest (seen + 1) hits

open Classical in
/-- Modelled from the documented behavior of
`sklearn.metrics.average_precision_score`: mean of precision-at-k over the
positive positions, predictions ranked by decreasing score; `none` on a length
mismatch or when no positive label is present. -/
noncomputable def average_precision_score (labels preds : List ℝ) : Option ℝ :=
  if labels.length = preds.length then
    let pairs := labels.zip preds
    let npos := (pairs.filter (fun p => decide (p.1 = 1))).length
    if npos = 0 then none
    else some (apScan (pairs.mergeSort (fun a b => decide (b.2 ≤ a.2))) 0 0 / npos)
  else none

/-- Predictions and labels built by `get_roc_score` (train.py lines 45–60):
sigmoid of the embedding dot products for the positive then the negative
edges; labels are `len(preds)` ones followed by `len(preds)` zeros — note the
second block's length is `len(preds)`, not `len(preds_neg)`, and that the
adjacency lookups `pos`/`neg` are computed but never used. -/
noncomputable def get_roc_data {n d : ℕ} (emb : Fin n → Fin d → ℝ)
    (adj_orig_m : Fin n → Fin n → ℝ)
    (edges_pos edges_neg : List (Fin n × Fin n)) : List ℝ × List ℝ :=
  let adj_rec := matMulL emb (transposeM emb)
  let preds := edges_pos.map (fun e => sigmoid (adj_rec e.1 e.2))
  let pos := edges_pos.map (fun e => adj_orig_m e.1 e.2)
  let preds_neg := edges_neg.map (fun e => sigmoid (adj_rec e.1 e.2))
  let neg := edges_neg.map (fun e => adj_orig_m e.1 e.2)
  let preds_all := preds ++ preds_neg
  let labels_all := List.replicate preds.length (1 : ℝ) ++ List.replicate preds.length 0
  (preds_all, labels_all)

/-- Scores returned by `get_roc_score` (train.py lines 61–64). -/
noncomputable def roc_scores {n d : ℕ} (emb : Fin n → Fin d → ℝ)
    (adj_orig_m : Fin n → Fin n → ℝ)
    (edges_pos edges_neg : List (Fin n × Fin n)) : Option (ℝ × ℝ) :=
  let data := get_roc_data emb adj_orig_m edges_pos edges_neg
  match roc_auc_score data.2 data.1, average_precision_score data.2 data.1 with
  | some r, some a => some (r, a)
  | _, _ => none

/-- Claim C4: the evaluator's output does not depend on the true adjacency
matrix at all (the lookups for both positive and negative edges are dead
code), and — for matching-size edge lists, which sampled negatives have by
construction — every positive edge is labelled 1 and every negative edge is
labelled 0, regardless of the adjacency content. -/
theorem C4_labels_independent_of_adjacency :
    (∀ {n d : ℕ} (emb : Fin n → Fin d → ℝ)
        (adj1 adj2 : Fin n → Fin n → ℝ) (pos neg : List (Fin n × Fin n)),
        roc_scores emb adj1 pos neg = roc_scores emb adj2 pos neg)
    ∧ (∀ {n d : ℕ} (emb : Fin n → Fin d → ℝ) (adjm : Fin n → Fin n → ℝ)
        (pos neg : List (Fin n × Fin n)), neg.length = pos.length →
        (get_roc_data emb adjm pos neg).2
          = List.replicate pos.length 1 ++ List.replicate neg.length 0) := by
  constructor
  · intro n d emb adj1 adj2 pos neg
    rfl
  · intro n d emb adjm pos neg h
    simp [get_roc_data, h]

/-- One-node fixtures for the evaluator witnesses. -/
def embOne : Fin 1 → Fin 1 → ℝ := ![![0]]

def adjZeroOne : Fin 1 → Fin 1 → ℝ := ![![0]]

def adjOneOne : Fin 1 → Fin 1 → ℝ := ![![1]]

/-- Witness for C4: two adjacency matrices differing at the looked-up
position give identical scores, and the labels are one 1 followed by one 0. -/
theorem C4_labels_independent_of_adjacency_witness :
    roc_scores embOne adjZeroOne [((0 : Fin 1), (0 : Fin 1))] [(0, 0)]
        = roc_scores embOne adjOneOne [(0, 0)] [(0, 0)]
    ∧ (get_roc_data embOne adjZeroOne [(0, 0)] [(0, 0)]).2
        = List.replicate 1 1 ++ List.replicate 1 0 :=
  ⟨C4_labels_independent_of_adjacency.1 embOne adjZeroOne adjOneOne [(0, 0)] [(0, 0)],
   C4_labels_independent_of_adjacency.2 embOne adjZeroOne [(0, 0)] [(0, 0)] rfl⟩

/-- Claim C10: the evaluator is only well-formed when the two edge lists have
the same length: the label vector always has length 2·|pos| while the
prediction vector has length |pos| + |neg|, so on any length mismatch the
score computation rejects its input (the modelled sklearn failure). -/
theorem C10_equal_length_precondition :
    ∀ {n d : ℕ} (emb : Fin n → Fin d → ℝ) (adjm : Fin n → Fin n → ℝ)
      (pos neg : List (Fin n × Fin n)),
      (get_roc_data emb adjm pos neg).2.length = 2 * pos.length
      ∧ (get_roc_data emb adjm pos neg).1.length = pos.length + neg.length
      ∧ (neg.length ≠ pos.length → roc_scores emb adjm pos neg = none) := by
  intro n d emb adjm pos neg
  refine ⟨by simp [get_roc_data]; ring, by simp [get_roc_data], ?_⟩
  intro h
  have hlen : (get_roc_data emb adjm pos neg).2.length
      ≠ (get_roc_data emb adjm pos neg).1.length := by
    simp [get_roc_data]
    omega
  rw [roc_scores, roc_auc_score, if_neg hlen]

/-- Witness for C10 with one positive edge and no negative edges: the label
vector has length 2, the prediction vector length 1, and the score
computation returns `none`. -/
theorem C10_equal_length_precondition_witness :
    (get_roc_data embOne adjZeroOne [((0 : Fin 1), (0 : Fin 1))] []).2.length = 2 * 1
    ∧ (get_roc_data embOne adjZeroOne [(0, 0)] []).1.length = 1 + 0
    ∧ roc_scores embOne adjZeroOne [(0, 0)] [] = none :=
  ⟨(C10_equal_length_precondition embOne adjZeroOne [(0, 0)] []).1,
   (C10_equal_length_precondition embOne adjZeroOne [(0, 0)] []).2.1,
   (C10_equal_length_precondition embOne adjZeroOne [(0, 0)] []).2.2 (by decide)⟩

/-! ## Session state, model forward pass and training loop (claims C7, C8, C9) -/

/-- `tf.nn.relu` over the idealized reals. -/
noncomputable def reluR (x : ℝ) : ℝ := max 0 x

/-- The mutable state of a run: the dropout entry of the (single, globally
shared) feed dictionary, and the two layer weight matrices — the only
variables of the graph. -/
structure SessState (f h1 h2 : ℕ) where
  feedDropout : ℝ
  w1 : Fin f → Fin h1 → ℝ
  w2 : Fin h1 → Fin h2 → ℝ

/-- `model.embeddings` (train.py lines 230–246) evaluated at dropout feed 0
(the setting under which the script ever fetches embeddings): first layer
`relu(Â·(X·W1))` with sparse input, second layer `Â·(hidden1·W2)` with
identity activation; at keep probability 1 both dropouts are the identity. -/
noncomputable def GCNModel.embeddings {n f h1 h2 : ℕ}
    (adjN : Fin n → Fin n → ℝ) (X : Fin n → Fin f → ℝ)
    (w1 : Fin f → Fin h1 → ℝ) (w2 : Fin h1 → Fin h2 → ℝ) :
    Fin n → Fin h2 → ℝ :=
  let hidden1 := fun i j => reluR (matMulL adjN (matMulL X w1) i j)
  matMulL adjN (matMulL hidden1 w2)

/-- `get_roc_score(edges_pos, edges_neg)` (train.py lines 38–64) as a state
transformer: it first mutates the global feed dictionary (dropout feed := 0,
line 39), then fetches the embeddings from the current weights and scores the
edge lists. -/
noncomputable def get_roc_score {n f h1 h2 : ℕ} (s : SessState f h1 h2)
    (adjN : Fin n → Fin n → ℝ) (X : Fin n → Fin f → ℝ)
    (adj_orig_m : Fin n → Fin n → ℝ)
    (edges_pos edges_neg : List (Fin n × Fin n)) :
    SessState f h1 h2 × Option (ℝ × ℝ) :=
  ({ s with feedDropout := 0 },
   roc_scores (GCNModel.embeddings adjN X s.w1 s.w2) adj_orig_m edges_pos edges_neg)

/-- Session-state fixture with a nonzero dropout feed (as it is mid-epoch,
where the loop has just set it to `FLAGS.dropout`). -/
noncomputable def sMidEpoch : SessState 1 1 1 :=
  { feedDropout := 1 / 10, w1 := ![![0]], w2 := ![![0]] }

/-- Counterexample to claim C7: `get_roc_score` is not pure — it overwrites
the feed dictionary's dropout entry with 0, so a state whose dropout feed is
1/10 is changed by the call. -/
theorem C7_purity_counterexample :
    (get_roc_score sMidEpoch adjZeroOne adjZeroOne adjZeroOne [] []).1
      ≠ sMidEpoch := by
  intro h
  have hd := congrArg SessState.feedDropout h
  simp only [get_roc_score, sMidEpoch] at hd
  norm_num at hd

/-- Claim C7, amended: `get_roc_score` leaves the model parameters unchanged
and is deterministic (repeated calls with the same inputs return the same
(roc, ap) pair), but it does mutate the feed dictionary: its only state
effect is resetting the dropout feed to 0. -/
theorem C7_score_deterministic_but_resets_dropout {n f h1 h2 : ℕ}
    (s : SessState f h1 h2) (adjN : Fin n → Fin n → ℝ) (X : Fin n → Fin f → ℝ)
    (adj_orig_m : Fin n → Fin n → ℝ)
    (edges_pos edges_neg : List (Fin n × Fin n)) :
    (get_roc_score s adjN X adj_orig_m edges_pos edges_neg).1.w1 = s.w1
    ∧ (get_roc_score s adjN X adj_orig_m edges_pos edges_neg).1.w2 = s.w2
    ∧ (get_roc_score s adjN X adj_orig_m edges_pos edges_neg).1
        = { s with feedDropout := 0 }
    ∧ (get_roc_score (get_roc_score s adjN X adj_orig_m edges_pos edges_neg).1
        adjN X adj_orig_m edges_pos edges_neg).2
        = (get_roc_score s adjN X adj_orig_m edges_pos edges_neg).2 :=
  ⟨rfl, rfl, rfl, rfl⟩

/-- One epoch of the training loop body (train.py lines 326–332): set the
dropout feed to `FLAGS.dropout`, run one optimizer update on the weight
matrices (the substrate's Adam step, a black box `upd` here), then evaluate on
the validation split — which resets the dropout feed. -/
noncomputable def epochStep {n f h1 h2 : ℕ}
    (upd : ((Fin f → Fin h1 → ℝ) × (Fin h1 → Fin h2 → ℝ))
      → ((Fin f → Fin h1 → ℝ) × (Fin h1 → Fin h2 → ℝ)))
    (flagsDropout : ℝ) (adjN : Fin n → Fin n → ℝ) (X : Fin n → Fin f → ℝ)
    (adj_orig_m : Fin n → Fin n → ℝ)
    (val_edges val_edges_false : List (Fin n × Fin n))
    (s : SessState f h1 h2) : SessState f h1 h2 :=
  let s1 : SessState f h1 h2 := { s with feedDropout := flagsDropout }
  let p := upd (s1.w1, s1.w2)
  let s2 : SessState f h1 h2 := { s1 with w1 := p.1, w2 := p.2 }
  (get_roc_score s2 adjN X adj_orig_m val_edges val_edges_false).1

/-- `for epoch in range(FLAGS.epochs)` (train.py line 326). -/
noncomputable def runTraining {n f h1 h2 : ℕ}
    (upd : ((Fin f → Fin h1 → ℝ) × (Fin h1 → Fin h2 → ℝ))
      → ((Fin f → Fin h1 → ℝ) × (Fin h1 → Fin h2 → ℝ)))
    (flagsDropout : ℝ) (adjN : Fin n → Fin n → ℝ) (X : Fin n → Fin f → ℝ)
    (adj_orig_m : Fin n → Fin n → ℝ)
    (val_edges val_edges_false : List (Fin n × Fin n)) :
    ℕ → SessState f h1 h2 → SessState f h1 h2
  | 0, s => s
  | e + 1, s =>
    runTraining upd flagsDropout adjN X adj_orig_m val_edges val_edges_false e
      (epochStep upd flagsDropout adjN X adj_orig_m val_edges val_edges_false s)

/-- Final test evaluation of the script (train.py line 342): the scores of
`get_roc_score(test_edges, test_edges_false)` after the training loop. -/
noncomputable def finalScores {n f h1 h2 : ℕ}
    (upd : ((Fin f → Fin h1 → ℝ) × (Fin h1 → Fin h2 → ℝ))
      → ((Fin f → Fin h1 → ℝ) × (Fin h1 → Fin h2 → ℝ)))
    (flagsDropout : ℝ) (adjN : Fin n → Fin n → ℝ) (X : Fin n → Fin f → ℝ)
    (adj_orig_m : Fin n → Fin n → ℝ)
    (val_edges val_edges_false : List (Fin n × Fin n)) (epochs : ℕ)
    (s0 : SessState f h1 h2)
    (test_edges test_edges_false : List (Fin n × Fin n)) : Option (ℝ × ℝ) :=
  (get_roc_score
    (runTraining upd flagsDropout adjN X adj_orig_m val_edges val_edges_false
      epochs s0)
    adjN X adj_orig_m test_edges test_edges_false).2

/-- Claim C8: with `epochs = 0` the loop body never runs — the state after
training is exactly the initial state, so no update touched any weight matrix
— and the final test scores are computed from the initial weights. -/
theorem C8_zero_epochs_no_update {n f h1 h2 : ℕ}
    (upd : ((Fin f → Fin h1 → ℝ) × (Fin h1 → Fin h2 → ℝ))
      → ((Fin f → Fin h1 → ℝ) × (Fin h1 → Fin h2 → ℝ)))
    (flagsDropout : ℝ) (adjN : Fin n → Fin n → ℝ) (X : Fin n → Fin f → ℝ)
    (adj_orig_m : Fin n → Fin n → ℝ)
    (val_edges val_edges_false : List (Fin n × Fin n))
    (s0 : SessState f h1 h2)
    (test_edges test_edges_false : List (Fin n × Fin n)) :
    runTraining upd flagsDropout adjN X adj_orig_m val_edges val_edges_false
        0 s0 = s0
    ∧ finalScores upd flagsDropout adjN X adj_orig_m val_edges val_edges_false
        0 s0 test_edges test_edges_false
      = roc_scores (GCNModel.embeddings adjN X s0.w1 s0.w2) adj_orig_m
          test_edges test_edges_false :=
  ⟨rfl, rfl⟩

/-! ## Configuration surface (train.py lines 18–27) and claim C9 -/

/-- The recognized flags, with the types `flags.DEFINE_*` give them.  The flag
module stores whatever values it is handed; train.py performs no validation of
any of them. -/
structure Config where
  learning_rate : ℚ
  epochs : ℤ
  hidden1 : ℕ
  hidden2 : ℕ
  dropout : ℚ
  regenerate_training_data : Bool

/-- The error the spec's taxonomy prescribes for invalid hyperparameters. -/
inductive ConfigurationError : Type
  | invalidHyperparameter
deriving DecidableEq

/-- Top level of the script under a configuration: no validation happens
anywhere (the flag definitions on lines 18–27 only store values), the
training loop `for epoch in range(FLAGS.epochs)` iterates `max(epochs, 0)`
times (Python's `range` of a negative integer is empty), and the final test
evaluation always runs.  The result type records where a
`ConfigurationError` would appear if the script raised one. -/
noncomputable def runProgram {n f h1 h2 : ℕ} (cfg : Config)
    (upd : ((Fin f → Fin h1 → ℝ) × (Fin h1 → Fin h2 → ℝ))
      → ((Fin f → Fin h1 → ℝ) × (Fin h1 → Fin h2 → ℝ)))
    (s0 : SessState f h1 h2)
    (adjN : Fin n → Fin n → ℝ) (X : Fin n → Fin f → ℝ)
    (adj_orig_m : Fin n → Fin n → ℝ)
    (val_edges val_edges_false test_edges test_edges_false : List (Fin n × Fin n)) :
    Except ConfigurationError (Option (ℝ × ℝ)) :=
  Except.ok (finalScores upd (cfg.dropout : ℝ) adjN X adj_orig_m
    val_edges val_edges_false cfg.epochs.toNat s0 test_edges test_edges_false)

/-- An invalid configuration in the sense of the claim: negative epochs and
dropout ≥ 1. -/
def cfgInvalid : Config :=
  { learning_rate := 1 / 100, epochs := -1, hidden1 := 32, hidden2 := 16,
    dropout := 3 / 2, regenerate_training_data := false }

/-- One-node initial session state for the C9 counterexample. -/
noncomputable def sInit : SessState 1 1 1 :=
  { feedDropout := 0, w1 := ![![0]], w2 := ![![0]] }

/-- Counterexample to claim C9: under the invalid configuration
(epochs = −1, dropout = 3/2) the program raises nothing — it returns the test
scores computed through a full forward pass of the model (so a forward pass
does occur, and no `ConfigurationError` is produced). -/
theorem C9_no_validation_counterexample :
    runProgram cfgInvalid (fun p => p) sInit adjZeroOne adjZeroOne adjZeroOne
        [] [] [((0 : Fin 1), (0 : Fin 1))] []
      = Except.ok (roc_scores (GCNModel.embeddings adjZeroOne adjZeroOne
          sInit.w1 sInit.w2) adjZeroOne [(0, 0)] []) := rfl

/-- Claim C9, amended: the program performs no hyperparameter validation at
all — every configuration is accepted and the run proceeds to the final
evaluation; in particular a negative `epochs` just makes the training loop
body run zero times while the final test evaluation (a forward pass from the
initial weights) still occurs. -/
theorem C9_no_configuration_error {n f h1 h2 : ℕ} (cfg : Config)
    (upd : ((Fin f → Fin h1 → ℝ) × (Fin h1 → Fin h2 → ℝ))
      → ((Fin f → Fin h1 → ℝ) × (Fin h1 → Fin h2 → ℝ)))
    (s0 : SessState f h1 h2)
    (adjN : Fin n → Fin n → ℝ) (X : Fin n → Fin f → ℝ)
    (adj_orig_m : Fin n → Fin n → ℝ)
    (val_edges val_edges_false test_edges test_edges_false : List (Fin n × Fin n)) :
    runProgram cfg upd s0 adjN X adj_orig_m val_edges val_edges_false
        test_edges test_edges_false
      = Except.ok (finalScores upd (cfg.dropout : ℝ) adjN X adj_orig_m
          val_edges val_edges_false cfg.epochs.toNat s0 test_edges
          test_edges_false)
    ∧ (cfg.epochs < 0 →
        runProgram cfg upd s0 adjN X adj_orig_m val_edges val_edges_false
            test_edges test_edges_false
          = Except.ok ((get_roc_score s0 adjN X adj_orig_m test_edges
              test_edges_false).2)) := by
  refine ⟨rfl, fun h => ?_⟩
  rw [runProgram, Int.toNat_eq_zero.mpr h.le]
  rfl

/-- Witness for C9's amended theorem at the invalid configuration. -/
theorem C9_no_configuration_error_witness :
    runProgram cfgInvalid (fun p => p) sInit adjZeroOne adjZeroOne adjZeroOne
        [] [] [((0 : Fin 1), (0 : Fin 1))] []
      = Except.ok ((get_roc_score sInit adjZeroOne adjZeroOne adjZeroOne
          [(0, 0)] []).2) :=
  (C9_no_configuration_error cfgInvalid (fun p => p) sInit adjZeroOne
    adjZeroOne adjZeroOne [] [] [(0, 0)] []).2 (by decide)

/-! ## WeightedReconstructionLoss / Optimizer (train.py lines 253–267), claim C1 -/

/-- `tf.reduce_mean` over a flat length-m tensor. -/
noncomputable def reduce_mean (m : ℕ) (v : Fin m → ℝ) : ℝ := (∑ i, v i) / m

/-- `tf.nn.weighted_cross_entropy_with_logits(logits, targets, pos_weight)`,
per its documented formula:
`targets * -log(sigmoid(logits)) * pos_weight + (1 - targets) * -log(1 - sigmoid(logits))`. -/
noncomputable def weighted_cross_entropy_with_logits (posW logit target : ℝ) : ℝ :=
  target * (-Real.log (sigmoid logit)) * posW
    + (1 - target) * (-Real.log (1 - sigmoid logit))

/-- `pos_weight` of `Optimizer.__init__` (train.py line 255). -/
noncomputable def Optimizer.pos_weight (num_nodes num_edges : ℕ) : ℝ :=
  ((num_nodes : ℝ) ^ 2 - (num_edges : ℝ)) / (num_edges : ℝ)

/-- `norm` of `Optimizer.__init__` (train.py line 256), with the source's
`(N² − E) * 2` denominator. -/
noncomputable def Optimizer.norm (num_nodes num_edges : ℕ) : ℝ :=
  (num_nodes : ℝ) ^ 2 / (((num_nodes : ℝ) ^ 2 - (num_edges : ℝ)) * 2)

/-- `self.cost` of `Optimizer.__init__` (train.py lines 261–263): `norm`
times the mean of the weighted cross-entropy over the flattened N² logits
and labels. -/
noncomputable def Optimizer.cost (num_nodes num_edges : ℕ)
    (preds labels : Fin (num_nodes * num_nodes) → ℝ) : ℝ :=
  Optimizer.norm num_nodes num_edges
    * reduce_mean (num_nodes * num_nodes)
        (fun i => weighted_cross_entropy_with_logits
          (Optimizer.pos_weight num_nodes num_edges) (preds i) (labels i))

/-- Written from the spec's words (section 4.7): `posWeight = (N² − E)/E`. -/
noncomputable def specPosWeight (N E : ℕ) : ℝ := ((N : ℝ) ^ 2 - (E : ℝ)) / (E : ℝ)

/-- Written from the spec's words (section 4.7): `norm = N² / (2·(N² − E))`. -/
noncomputable def specNorm (N E : ℕ) : ℝ :=
  (N : ℝ) ^ 2 / (2 * ((N : ℝ) ^ 2 - (E : ℝ)))

/-- Written from the spec's words (section 4.7): standard binary
cross-entropy with the positive term scaled by `posWeight`. -/
noncomputable def specWeightedCrossEntropy (posW logit target : ℝ) : ℝ :=
  -(posW * target * Real.log (sigmoid logit)
    + (1 - target) * Real.log (1 - sigmoid logit))

/-- Written from the spec's words (section 4.7):
`cost = norm · mean(weightedCrossEntropyWithLogits(logits, labels, posWeight))`
over all N² entries. -/
noncomputable def specCost (N E : ℕ) (preds labels : Fin (N * N) → ℝ) : ℝ :=
  specNorm N E
    * reduce_mean (N * N)
        (fun i => specWeightedCrossEntropy (specPosWeight N E) (preds i) (labels i))

/-- Claim C1: for 0 < E < N², the Optimizer computes exactly the spec's
`posWeight = (N² − E)/E` and `norm = N²/(2·(N² − E))`, and its cost is norm
times the mean over all N² entries of the weighted cross-entropy with logits,
with the positive term scaled by posWeight. -/
theorem C1_optimizer_cost (N E : ℕ) (hE : 0 < E) (hlt : E < N ^ 2)
    (preds labels : Fin (N * N) → ℝ) :
    Optimizer.pos_weight N E = specPosWeight N E
    ∧ Optimizer.norm N E = specNorm N E
    ∧ Optimizer.cost N E preds labels = specCost N E preds labels := by
  have hnorm : Optimizer.norm N E = specNorm N E := by
    rw [Optimizer.norm, specNorm, mul_comm]
  refine ⟨rfl, hnorm, ?_⟩
  rw [Optimizer.cost, specCost, hnorm]
  congr 1
  rw [reduce_mean, reduce_mean]
  congr 1
  apply Finset.sum_congr rfl
  intro i _
  rw [weighted_cross_entropy_with_logits, specWeightedCrossEntropy,
    Optimizer.pos_weight, specPosWeight]
  ring

/-- Witness for C1 at N = 2 nodes, E = 1 edge, all-zero logits and labels. -/
theorem C1_optimizer_cost_witness :
    Optimizer.pos_weight 2 1 = specPosWeight 2 1
    ∧ Optimizer.norm 2 1 = specNorm 2 1
    ∧ Optimizer.cost 2 1 (fun _ => 0) (fun _ => 0)
        = specCost 2 1 (fun _ => 0) (fun _ => 0) :=
  C1_optimizer_cost 2 1 (by decide) (by decide) (fun _ => 0) (fun _ => 0)
